import Mathlib

/-!
Verification development for the GETOLS OLT automation engine.

This file gives a shallow embedding of the core of the repository:
the ZTE adapter command executor (`src/app/adapters/zte/base.py`), the
C300/C320 model adapters (`c300.py`, `c320.py`) and the SNMP read-only
client (`src/app/snmp/__init__.py`), together with theorems settling the
frozen claims C1..C10.

Modelling conventions:
- Python strings are Lean `String`s; character-level operations work on
  `String.data` (`List Char`).  Case mapping uses the ASCII maps
  `Char.toLower`/`Char.toUpper`; the inputs handled by the engine
  (CLI output, serial numbers, SNMP text) are ASCII.
- The live device / operating system is an explicit oracle parameter:
  a function from the command (and the history of previously sent
  commands) to an outcome.  Exceptions raised by the transport are an
  oracle outcome, captured exactly where the Python code catches them.
- Side effects that the claims talk about (commands sent to the
  transport, subprocess invocations attempted) are returned explicitly
  alongside each result.
-/

/-- Double-quote character (written via its code point to keep string
literals free of quote escapes). -/
def quoteChar : Char := Char.ofNat 34

/-- Apostrophe character. -/
def aposChar : Char := Char.ofNat 39

/-- Python `str.strip` whitespace set (ASCII part): space, tab, newline,
carriage return, vertical tab, form feed. -/
def pyWsChar (c : Char) : Bool :=
  c = ' ' || c = Char.ofNat 9 || c = Char.ofNat 10 || c = Char.ofNat 13 ||
  c = Char.ofNat 11 || c = Char.ofNat 12

/-- ASCII decimal digit, the `\d` class of the source regexes. -/
def isDigitChar (c : Char) : Bool := '0' ≤ c && c ≤ '9'

/-- Python `str.strip()` on a character list: drop leading and trailing
whitespace. -/
def pyStripChars (cs : List Char) : List Char :=
  ((cs.dropWhile pyWsChar).reverse.dropWhile pyWsChar).reverse

/-- Python `str.strip()`. -/
def pyStrip (s : String) : String := String.mk (pyStripChars s.data)

/-- Python `s.split("\n")` on a character list: split at every newline,
keeping empty pieces (never returns an empty list). -/
def splitNl : List Char → List (List Char)
  | [] => [[]]
  | c :: cs =>
    let r := splitNl cs
    if c = Char.ofNat 10 then [] :: r
    else
      match r with
      | h :: t => (c :: h) :: t
      | [] => [[c]]

/-- Python `"\n".join(lines)` on character lists. -/
def joinNl : List (List Char) → List Char
  | [] => []
  | [l] => l
  | l :: ls => l ++ Char.ofNat 10 :: joinNl ls

/-- Does `s` start with `p` (exact character comparison)? -/
def startsWithCS : List Char → List Char → Bool
  | [], _ => true
  | _ :: _, [] => false
  | p :: ps, c :: cs => p = c && startsWithCS ps cs

/-- Python substring test `needle in hay` (contiguous substring). -/
def strHas (needle : List Char) : List Char → Bool
  | [] => startsWithCS needle []
  | c :: cs => startsWithCS needle (c :: cs) || strHas needle cs

/-- ASCII-lowercased copy of a string, Python `str.lower()` for the
ASCII texts the engine handles. -/
def pyLower (s : String) : String := String.mk (s.data.map Char.toLower)

/-- ASCII-uppercased copy of a string, Python `str.upper()`. -/
def pyUpper (s : String) : String := String.mk (s.data.map Char.toUpper)

/-- Numeric value of a (nonempty, all-digit) capture, Python `int(...)`
on the text matched by a `\d+` group. -/
def natOfDigits (cs : List Char) : Nat :=
  cs.foldl (fun acc c => acc * 10 + (c.toNat - 48)) 0

/-!
## Transport session and prompt-synchronized command executor

Embedding of `ZTEBaseAdapter` (`src/app/adapters/zte/base.py`).  The
timeouts and the concrete SSH/Telnet plumbing perform only real I/O and
are abstracted into the device oracle; both the SSH and the Telnet paths
apply the same echo-stripping post-processing, which is embedded once.
-/

/-- Result of CLI command execution (`CommandResult`, base.py:35-40). -/
structure CommandResult where
  success : Bool
  output : String
  error : Option String := none
  deriving DecidableEq, Repr

/-- Outcome of one send/read round trip against the live device:
either the raw text read until the prompt, or an exception raised
during send/read (timeout, channel error, connection reset ...). -/
inductive ExecOutcome where
  | ok (raw : String)
  | exc (msg : String)
  deriving DecidableEq, Repr

/-- Adapter connection state: the `_connected` flag plus the device
oracle standing for the live connection.  The oracle receives the
history of commands already sent on this session, so a device whose
replies depend on earlier commands (CLI mode nesting) is representable. -/
structure AdapterState where
  connected : Bool
  device : List String → String → ExecOutcome

/-- Post-processing shared by `_execute_ssh` (base.py:273-278) and
`_execute_telnet` (base.py:288-293): split the captured output into
lines, drop the first line when the sent command occurs in it as a
substring (transport echo), rejoin and strip. -/
def strip_echo (command : String) (raw : String) : String :=
  let lines := splitNl raw.data
  let lines :=
    match lines with
    | l0 :: rest => if strHas command.data l0 then rest else l0 :: rest
    | [] => []
  String.mk (pyStripChars (joinNl lines))

/-- One executed command (`execute_command`, base.py:234-256).  Returns
the `CommandResult` together with the list of commands this call sent to
the transport (empty when not connected). -/
def execute_command (st : AdapterState) (hist : List String) (command : String) :
    CommandResult × List String :=
  if st.connected then
    match st.device hist command with
    | .ok raw => ({ success := true, output := strip_echo command raw }, [command])
    | .exc m => ({ success := false, output := "", error := some m }, [command])
  else
    ({ success := false, output := "", error := some "Not connected to OLT" }, [])

/-- Sequential execution with stop-on-first-failure
(`execute_commands`, base.py:329-346).  Returns the collected results
and the full list of commands sent to the transport. -/
def execute_commands (st : AdapterState) (hist : List String) :
    List String → List CommandResult × List String
  | [] => ([], [])
  | c :: cs =>
    let (r, s) := execute_command st hist c
    if r.success then
      let (rs, ss) := execute_commands st (hist ++ s) cs
      (r :: rs, s ++ ss)
    else
      ([r], s)

/-!
## Regex engine

The source uses `re.finditer` / `re.search` with a handful of concrete
patterns.  Those patterns use only: literals, the classes `\d`, `\s`,
`\S`, `.`, a two-character class, the quantifiers `*`, `+`, `+?`, `?`
(each over a single-character class), one level of capture groups, and
the `$` anchor.  The engine below enumerates candidate matches in
Python backtracking preference order (leftmost start, then greedy
quantifiers longest-first, lazy quantifiers shortest-first), so the
head of the candidate list is exactly the match Python reports.
-/

/-- Group-free regex elements. -/
inductive GElem where
  | lit (s : List Char)
  | litCI (s : List Char)
  | cls (p : Char → Bool)
  | star (p : Char → Bool)
  | plusG (p : Char → Bool)
  | plusL (p : Char → Bool)
  | opt (p : Char → Bool)
  | eol

/-- Case-insensitive `startsWith` (ASCII folding, the effect of
`re.IGNORECASE` on the source's literal fragments). -/
def startsWithCI : List Char → List Char → Bool
  | [], _ => true
  | _ :: _, [] => false
  | p :: ps, c :: cs => p.toLower = c.toLower && startsWithCI ps cs

/-- Length of the maximal run of `p`-characters at the head of `cs`. -/
def runLen (p : Char → Bool) (cs : List Char) : Nat := (cs.takeWhile p).length

/-- Candidate consumption counts for a greedy `p*`: longest first. -/
def starCounts (p : Char → Bool) (cs : List Char) : List Nat :=
  (List.range (runLen p cs + 1)).map (fun i => runLen p cs - i)

/-- Candidate consumption counts for a greedy `p+`: longest first, at
least one character. -/
def plusGCounts (p : Char → Bool) (cs : List Char) : List Nat :=
  (List.range (runLen p cs)).map (fun i => runLen p cs - i)

/-- Candidate consumption counts for a lazy `p+?`: shortest first. -/
def plusLCounts (p : Char → Bool) (cs : List Char) : List Nat :=
  (List.range (runLen p cs)).map (fun i => i + 1)

/-- All ways a group-free element list can match a prefix of `cs`;
each candidate is the remaining suffix, in preference order. -/
def mGAll : List GElem → List Char → List (List Char)
  | [], cs => [cs]
  | g :: gs, cs =>
    match g with
    | .lit s => if startsWithCS s cs then mGAll gs (cs.drop s.length) else []
    | .litCI s => if startsWithCI s cs then mGAll gs (cs.drop s.length) else []
    | .cls p =>
      match cs with
      | [] => []
      | c :: cs' => if p c then mGAll gs cs' else []
    | .star p => (starCounts p cs).flatMap (fun k => mGAll gs (cs.drop k))
    | .plusG p => (plusGCounts p cs).flatMap (fun k => mGAll gs (cs.drop k))
    | .plusL p => (plusLCounts p cs).flatMap (fun k => mGAll gs (cs.drop k))
    | .opt p =>
      match cs with
      | [] => mGAll gs []
      | c :: cs' => if p c then mGAll gs cs' ++ mGAll gs (c :: cs') else mGAll gs (c :: cs')
    | .eol => if cs = [] || cs = [Char.ofNat 10] then mGAll gs cs else []

/-- Pattern elements: plain, or a (non-nested) capture group. -/
inductive RElem where
  | simple (g : GElem)
  | grp (gs : List GElem)

/-- All ways a pattern can match a prefix of `cs`: remaining suffix and
the list of group captures, in preference order. -/
def mEAll : List RElem → List Char → List (List Char × List String)
  | [], cs => [(cs, [])]
  | .simple g :: rest, cs => (mGAll [g] cs).flatMap (fun r => mEAll rest r)
  | .grp gs :: rest, cs =>
    (mGAll gs cs).flatMap (fun r =>
      (mEAll rest r).map (fun rc =>
        (rc.1, String.mk (cs.take (cs.length - r.length)) :: rc.2)))

/-- Python `re.search`: captures of the leftmost (then most preferred)
match, scanning start positions left to right. -/
def reSearch (es : List RElem) : List Char → Option (List String)
  | [] => ((mEAll es []).head?).map (fun rc => rc.2)
  | c :: cs =>
    match (mEAll es (c :: cs)).head? with
    | some rc => some rc.2
    | none => reSearch es cs

/-- Python `re.finditer` worker: emit the captures of each
non-overlapping match, continuing after each match (one character
further when a match is empty).  `fuel` bounds the scan; the wrapper
passes enough for the whole input. -/
def reFindAux (es : List RElem) : Nat → List Char → List (List String)
  | 0, _ => []
  | fuel + 1, cs =>
    match (mEAll es cs).head? with
    | some rc =>
      if rc.1.length < cs.length then
        rc.2 :: reFindAux es fuel rc.1
      else
        rc.2 ::
          (match cs with
           | [] => []
           | _ :: cs' => reFindAux es fuel cs')
    | none =>
      match cs with
      | [] => []
      | _ :: cs' => reFindAux es fuel cs'

/-- Python `re.finditer`: capture lists of all non-overlapping matches,
in document order. -/
def reFindAll (es : List RElem) (cs : List Char) : List (List String) :=
  reFindAux es (cs.length + 1) cs

/-!
## Vendor adapters (ZTE C300 / C320)

Embedding of `src/app/adapters/zte/c300.py` and `c320.py`, plus the
sequence operations of the base class that use them.
-/

/-- Python regex class `\s` (ASCII whitespace, same set as `str.strip`). -/
def wsRe (c : Char) : Bool := pyWsChar c

/-- Python regex class `\S`. -/
def nonWsRe (c : Char) : Bool := !(pyWsChar c)

/-- Discovery line pattern shared by both models (c300.py:40, c320.py:41):
the regex `gpon-onu_(\d+/\d+/\d+):(\d+)\s+(\S+)\s+(\S+)`. -/
def onuLinePattern : List RElem :=
  [ .simple (.lit "gpon-onu_".data),
    .grp [.plusG isDigitChar, .lit "/".data, .plusG isDigitChar, .lit "/".data,
          .plusG isDigitChar],
    .simple (.lit ":".data),
    .grp [.plusG isDigitChar],
    .simple (.plusG wsRe),
    .grp [.plusG nonWsRe],
    .simple (.plusG wsRe),
    .grp [.plusG nonWsRe] ]

/-- Result of ONU discovery (`ONUDiscoveryResult`, base.py:25-32). -/
structure ONUDiscoveryResult where
  pon_port : String
  onu_id : Nat
  serial_number : String
  onu_type : String
  status : String
  deriving DecidableEq, Repr

/-- Serial-prefix lookup of `ZTEC300Adapter._detect_onu_type`
(c300.py:61-77); the dict iterates in insertion order. -/
def type_map_c300 : List (String × String) :=
  [("ZTEG", "ZTE GPON"), ("HWTC", "Huawei"), ("ALCL", "Alcatel"),
   ("FHTT", "Fiberhome")]

/-- Serial-prefix lookup of `ZTEC320Adapter._detect_onu_type`
(c320.py:61-77). -/
def type_map_c320 : List (String × String) :=
  [("ZTEG", "ZTE GPON"), ("HWTC", "Huawei"), ("ALCL", "Alcatel"),
   ("FHTT", "Fiberhome"), ("ZNTS", "ZTE Smart")]

/-- ONU type from serial-number prefix (`_detect_onu_type`): first
matching prefix of the uppercased serial wins, else "Unknown". -/
def detect_onu_type (typeMap : List (String × String)) (serial_number : String) : String :=
  let snUpper := pyUpper serial_number
  match typeMap.find? (fun pt => startsWithCS pt.1.data snUpper.data) with
  | some pt => pt.2
  | none => "Unknown"

/-- One discovery row from the four captures of `onuLinePattern`
(c300.py:42-57).  The pattern has exactly four groups, so the catch-all
branch is unreachable. -/
def rowOfCaptures (typeMap : List (String × String)) (caps : List String) :
    ONUDiscoveryResult :=
  match caps with
  | [p, i, sn, st] =>
    { pon_port := p, onu_id := natOfDigits i.data, serial_number := sn,
      onu_type := detect_onu_type typeMap sn, status := st }
  | _ => { pon_port := "", onu_id := 0, serial_number := "", onu_type := "", status := "" }

/-- Discovery output parser (`parse_unconfigured_onus`, c300.py:27-59
and c320.py:28-59; the two differ only in the type map): one result per
regex match, in document order. -/
def parse_unconfigured_onus (typeMap : List (String × String)) (output : String) :
    List ONUDiscoveryResult :=
  (reFindAll onuLinePattern output.data).map (rowOfCaptures typeMap)

/-- Sanitized ONU name (c300.py:122, c320.py:115): spaces replaced by
underscores (a character map, since the replaced pattern is one
character), then truncated to 32 characters. -/
def sanitize_name (name : String) : String :=
  String.mk ((name.data.map (fun c => if c = ' ' then '_' else c)).take 32)

/-- Register command synthesis for the C300
(`ZTEC300Adapter.get_register_onu_commands`, c300.py:79-139).
`service_profile` and `service_port` are accepted but unused, as in the
source. -/
def ZTEC300Adapter.get_register_onu_commands (pon_port : String) (onu_id : Nat)
    (serial_number name line_profile service_profile : String) (vlan : Nat)
    (service_port : Option Nat := none) : List String :=
  ["configure terminal",
   "interface gpon-olt_" ++ pon_port,
   "onu " ++ toString onu_id ++ " type auto sn " ++ serial_number,
   "exit",
   "interface gpon-onu_" ++ pon_port ++ ":" ++ toString onu_id] ++
  (if name ≠ "" then ["name " ++ sanitize_name name] else []) ++
  ["tcont 1 profile " ++ line_profile,
   "gemport 1 tcont 1",
   "switchport mode trunk vport 1",
   "service-port 1 vport 1 user-vlan " ++ toString vlan ++ " vlan " ++ toString vlan,
   "exit",
   "exit"]

/-- Register command synthesis for the C320
(`ZTEC320Adapter.get_register_onu_commands`, c320.py:79-132); the
generated commands are the same fixed shape as the C300. -/
def ZTEC320Adapter.get_register_onu_commands (pon_port : String) (onu_id : Nat)
    (serial_number name line_profile service_profile : String) (vlan : Nat)
    (service_port : Option Nat := none) : List String :=
  ["configure terminal",
   "interface gpon-olt_" ++ pon_port,
   "onu " ++ toString onu_id ++ " type auto sn " ++ serial_number,
   "exit",
   "interface gpon-onu_" ++ pon_port ++ ":" ++ toString onu_id] ++
  (if name ≠ "" then ["name " ++ sanitize_name name] else []) ++
  ["tcont 1 profile " ++ line_profile,
   "gemport 1 tcont 1",
   "switchport mode trunk vport 1",
   "service-port 1 vport 1 user-vlan " ++ toString vlan ++ " vlan " ++ toString vlan,
   "exit",
   "exit"]

/-- Delete command synthesis (c300.py:141-166, c320.py:134-153: same
commands for both models). -/
def get_delete_onu_commands (pon_port : String) (onu_id : Nat) : List String :=
  ["configure terminal",
   "interface gpon-olt_" ++ pon_port,
   "no onu " ++ toString onu_id,
   "exit",
   "exit"]

/-- In-band error keywords (`_check_error_in_output`, base.py:427-442).
The patterns are regex-literal words, so `re.search` over the lowercased
output is substring containment. -/
def error_keywords : List String :=
  ["error", "invalid", "failed", "not found", "does not exist", "unknown command"]

/-- Check whether command output contains an in-band error indicator. -/
def check_error_in_output (output : String) : Bool :=
  error_keywords.any (fun p => strHas p.data (pyLower output).data)

/-- Python `str(x)` of an `Optional[str]` inside an f-string: `None`
renders as the text "None". -/
def pyOptStr : Option String → String
  | none => "None"
  | some s => s

/-- The result-scanning loop shared verbatim by `register_onu`
(base.py:398-404) and `delete_onu` (base.py:418-423): report the first
failing step with its 1-based index, checking transport failure before
in-band error text. -/
def check_sequence_results : Nat → List CommandResult → Bool × Option String
  | _, [] => (true, none)
  | i, r :: rs =>
    if r.success = false then
      (false, some ("Command failed at step " ++ toString (i + 1) ++ ": " ++ pyOptStr r.error))
    else if check_error_in_output r.output then
      (false, some ("OLT error at step " ++ toString (i + 1) ++ ": " ++ r.output))
    else
      check_sequence_results (i + 1) rs

/-- ONU registration (`register_onu`, base.py:367-406): execute the
synthesized command sequence and scan the results.  `commands` is the
output of the model's `get_register_onu_commands`. -/
def ZTEBaseAdapter.register_onu (st : AdapterState) (commands : List String) :
    Bool × Option String :=
  check_sequence_results 0 (execute_commands st [] commands).1

/-- ONU deletion (`delete_onu`, base.py:408-425): same execution and
scanning loop over the model's `get_delete_onu_commands` output. -/
def ZTEBaseAdapter.delete_onu (st : AdapterState) (commands : List String) :
    Bool × Option String :=
  check_sequence_results 0 (execute_commands st [] commands).1

/-- Command to show unconfigured ONUs, identical for both models
(c300.py:23-25, c320.py:24-26). -/
def get_unconfigured_onu_command : String := "show gpon onu uncfg"

/-- ONU discovery (`discover_onus`, base.py:348-365), parametrized by
the model's type map.  The source wraps the parse in try/except
(base.py:361-365); the embedded parser is total, so the except branch
is unreachable and structural success always yields a parsed list. -/
def ZTEBaseAdapter.discover_onus (st : AdapterState)
    (typeMap : List (String × String)) :
    Bool × List ONUDiscoveryResult × Option String :=
  let r := (execute_command st [] get_unconfigured_onu_command).1
  if r.success then (true, parse_unconfigured_onus typeMap r.output, none)
  else (false, [], r.error)

/-!
## SNMP read-only client

Embedding of `src/app/snmp/__init__.py`.  The operating system is the
`SnmpEnv` oracle: which of the external utilities exist on the host,
and what a spawned utility process produces.  Each operation returns,
next to its result, the number of subprocess invocations it attempted
(calls to `subprocess.run`; when the executable is missing the call is
still attempted and raises FileNotFoundError, which the source catches
at snmp/__init__.py:145-146).
-/

/-- Regex class `.` (any character except newline). -/
def dotRe (c : Char) : Bool := c ≠ Char.ofNat 10

/-- The two-character class of quote marks used by the STRING pattern. -/
def quoteRe (c : Char) : Bool := c = quoteChar || c = aposChar

/-- The ordered output-format patterns of `_parse_snmp_value`
(snmp/__init__.py:159-171), each compiled with `re.IGNORECASE`:
STRING, INTEGER, Gauge32, Counter32, Counter64, Timeticks, IpAddress,
OID, Hex-STRING, quoted, and the generic last-token pattern. -/
def snmp_value_patterns : List (List RElem) :=
  [ [ .simple (.lit "=".data), .simple (.star wsRe), .simple (.litCI "STRING:".data),
      .simple (.star wsRe), .simple (.opt quoteRe), .grp [.plusL dotRe],
      .simple (.opt quoteRe), .simple (.star wsRe), .simple .eol ],
    [ .simple (.lit "=".data), .simple (.star wsRe), .simple (.litCI "INTEGER:".data),
      .simple (.star wsRe), .grp [.plusG isDigitChar] ],
    [ .simple (.lit "=".data), .simple (.star wsRe), .simple (.litCI "Gauge32:".data),
      .simple (.star wsRe), .grp [.plusG isDigitChar] ],
    [ .simple (.lit "=".data), .simple (.star wsRe), .simple (.litCI "Counter32:".data),
      .simple (.star wsRe), .grp [.plusG isDigitChar] ],
    [ .simple (.lit "=".data), .simple (.star wsRe), .simple (.litCI "Counter64:".data),
      .simple (.star wsRe), .grp [.plusG isDigitChar] ],
    [ .simple (.lit "=".data), .simple (.star wsRe), .simple (.litCI "Timeticks:".data),
      .simple (.star wsRe), .simple (.lit "(".data), .grp [.plusG isDigitChar],
      .simple (.lit ")".data) ],
    [ .simple (.lit "=".data), .simple (.star wsRe), .simple (.litCI "IpAddress:".data),
      .simple (.star wsRe), .grp [.plusG dotRe] ],
    [ .simple (.lit "=".data), .simple (.star wsRe), .simple (.litCI "OID:".data),
      .simple (.star wsRe), .grp [.plusG dotRe] ],
    [ .simple (.lit "=".data), .simple (.star wsRe), .simple (.litCI "Hex-STRING:".data),
      .simple (.star wsRe), .grp [.plusG dotRe] ],
    [ .simple (.lit "=".data), .simple (.star wsRe), .simple (.lit [quoteChar]),
      .grp [.plusG dotRe], .simple (.lit [quoteChar]) ],
    [ .simple (.lit "=".data), .simple (.star wsRe), .grp [.plusG nonWsRe],
      .simple (.star wsRe), .simple .eol ] ]

/-- Characters after the first `=`, Python `output.split("=", 1)[1]`. -/
def afterFirstEq : List Char → List Char
  | [] => []
  | c :: cs => if c = '=' then cs else afterFirstEq cs

/-- Characters before the first `=`, Python `output.split("=", 1)[0]`. -/
def beforeFirstEq : List Char → List Char
  | [] => []
  | c :: cs => if c = '=' then [] else c :: beforeFirstEq cs

/-- Value extraction from one line of SNMP utility output
(`_parse_snmp_value`, snmp/__init__.py:150-182): first matching
pattern's stripped group, else the stripped text after `=`, else the
raw input. -/
def _parse_snmp_value (output : String) : String :=
  match snmp_value_patterns.findSome?
      (fun p => (reSearch p output.data).map (fun caps => pyStrip (caps.headD ""))) with
  | some v => v
  | none =>
    if strHas "=".data output.data then String.mk (pyStripChars (afterFirstEq output.data))
    else output

/-- SNMP value payload: Python `None`, a string, or the (oid, value)
pair list produced by walk/bulk. -/
inductive SNMPValue where
  | pynone
  | str (s : String)
  | pairs (l : List (String × String))
  deriving DecidableEq, Repr

/-- Result of an SNMP operation (`SNMPResult`, snmp/__init__.py:72-77). -/
structure SNMPResult where
  success : Bool
  value : SNMPValue := .pynone
  error : Option String := none
  deriving DecidableEq, Repr

/-- A completed subprocess (`subprocess.run` return value fields the
source reads). -/
structure SubprocCompleted where
  returncode : Int
  stdout : String
  stderr : String
  deriving DecidableEq, Repr

/-- Behavior of one spawned utility process: it completes, or exceeds
the subprocess timeout. -/
inductive SubprocOutcome where
  | completed (r : SubprocCompleted)
  | timedOut
  deriving DecidableEq, Repr

/-- Host environment oracle: which SNMP utilities are installed
(`shutil.which` and the `subprocess` PATH lookup agree), and what a
present utility does when spawned with a given argument vector. -/
structure SnmpEnv where
  hasSnmpget : Bool
  hasSnmpwalk : Bool
  hasSnmpbulkget : Bool
  exec : List String → SubprocOutcome

/-- The SNMP manager configuration (`SNMPManager.__init__`,
snmp/__init__.py:98-120). -/
structure SNMPManager where
  host : String
  community : String
  port : Nat
  timeout : Nat
  retries : Nat

/-- Module-level tool check (`check_snmp_tools`, snmp/__init__.py:17-40):
spawns nothing, reports the missing utilities by name. -/
def check_snmp_tools (env : SnmpEnv) : Bool × Option String :=
  if !env.hasSnmpget || !env.hasSnmpwalk then
    let missing : List String :=
      (if !env.hasSnmpget then ["snmpget"] else []) ++
      (if !env.hasSnmpwalk then ["snmpwalk"] else [])
    (false, some ("SNMP tools not found on server (" ++ String.intercalate ", " missing ++
      "). Please install the " ++ String.mk [aposChar] ++ "snmp" ++ String.mk [aposChar] ++
      " package: sudo apt install snmp"))
  else
    (true, none)

/-- Executable lookup for the spawned argument vector's program name. -/
def toolPresent (env : SnmpEnv) (name : String) : Bool :=
  if name = "snmpget" then env.hasSnmpget
  else if name = "snmpwalk" then env.hasSnmpwalk
  else if name = "snmpbulkget" then env.hasSnmpbulkget
  else false

/-- Python `a or b or dflt` over strings: first nonempty wins. -/
def firstNonemptyOr (a b dflt : String) : String :=
  if a ≠ "" then a else if b ≠ "" then b else dflt

/-- One subprocess round trip (`_run_snmp_command`,
snmp/__init__.py:122-148).  The second component counts attempted
`subprocess.run` invocations — exactly one, also when the executable is
missing (FileNotFoundError) or the process times out. -/
def _run_snmp_command (env : SnmpEnv) (cmd : List String) : (Bool × String) × Nat :=
  if toolPresent env (cmd.headD "") then
    match env.exec cmd with
    | .completed r =>
      if r.returncode = 0 then ((true, pyStrip r.stdout), 1)
      else ((false, firstNonemptyOr (pyStrip r.stderr) (pyStrip r.stdout) "Unknown error"), 1)
    | .timedOut => ((false, "SNMP request timed out"), 1)
  else
    ((false, "snmp tools not installed (snmpget/snmpwalk not found)"), 1)

/-- SNMP GET (`SNMPManager.get`, snmp/__init__.py:184-214).  Note the
second not-found test of the source (`"noSuch" in output.lower()`) can
never hold, since the lowered output cannot contain an uppercase S; it
is embedded as written. -/
def SNMPManager.get (mgr : SNMPManager) (env : SnmpEnv) (oid : String) : SNMPResult × Nat :=
  let cmd := ["snmpget", "-v", "2c", "-c", mgr.community, "-t", toString mgr.timeout,
              "-r", toString mgr.retries, mgr.host ++ ":" ++ toString mgr.port, oid]
  let ron := _run_snmp_command env cmd
  if ron.1.1 then
    if strHas "No Such".data ron.1.2.data || strHas "noSuch".data (pyLower ron.1.2).data then
      ({ success := false, error := some "OID not found" }, ron.2)
    else
      ({ success := true, value := .str (_parse_snmp_value ron.1.2) }, ron.2)
  else
    ({ success := false, error := some ron.1.2 }, ron.2)

/-- Line parsing shared by walk and bulk (snmp/__init__.py:239-246 and
276-282): keep lines containing `=` with nonempty strip, pairing the
stripped text before `=` with the parsed value of the whole line. -/
def parse_walk_lines (output : String) : List (String × String) :=
  (splitNl output.data).filterMap (fun line =>
    if strHas "=".data line && pyStripChars line ≠ [] then
      some (String.mk (pyStripChars (beforeFirstEq line)), _parse_snmp_value (String.mk line))
    else none)

/-- SNMP WALK (`SNMPManager.walk`, snmp/__init__.py:216-249). -/
def SNMPManager.walk (mgr : SNMPManager) (env : SnmpEnv) (oid : String) : SNMPResult × Nat :=
  let cmd := ["snmpwalk", "-v", "2c", "-c", mgr.community, "-t", toString mgr.timeout,
              "-r", toString mgr.retries, mgr.host ++ ":" ++ toString mgr.port, oid]
  let ron := _run_snmp_command env cmd
  if ron.1.1 then
    ({ success := true, value := .pairs (parse_walk_lines ron.1.2) }, ron.2)
  else
    ({ success := false, error := some ron.1.2 }, ron.2)

/-- SNMP GETBULK (`SNMPManager.get_bulk`, snmp/__init__.py:251-287),
falling back to `walk` when the bulk run fails; invocation counts
accumulate across the fallback. -/
def SNMPManager.get_bulk (mgr : SNMPManager) (env : SnmpEnv) (oid : String)
    (max_repetitions : Nat := 25) : SNMPResult × Nat :=
  let cmd := ["snmpbulkget", "-v", "2c", "-c", mgr.community, "-t", toString mgr.timeout,
              "-r", toString mgr.retries, "-Cr", toString max_repetitions,
              mgr.host ++ ":" ++ toString mgr.port, oid]
  let ron := _run_snmp_command env cmd
  if ron.1.1 then
    ({ success := true, value := .pairs (parse_walk_lines ron.1.2) }, ron.2)
  else
    let wn := mgr.walk env oid
    (wn.1, ron.2 + wn.2)

/-- System description OID (`ZTEOID.SYS_DESCR`, snmp/__init__.py:48). -/
def ZTEOID_SYS_DESCR : String := "1.3.6.1.2.1.1.1.0"

/-- ONU receive power OID base (`ZTEOID.ONU_RX_POWER_BASE`). -/
def ZTEOID_ONU_RX_POWER_BASE : String := "1.3.6.1.4.1.3902.1012.3.50.12.1.1.10"

/-- ONU transmit power OID base (`ZTEOID.ONU_TX_POWER_BASE`). -/
def ZTEOID_ONU_TX_POWER_BASE : String := "1.3.6.1.4.1.3902.1012.3.50.12.1.1.11"

/-- SNMP connection test (`SNMPManager.test_connection`,
snmp/__init__.py:289-311): check the external utilities first and fail
with zero subprocess invocations when one is missing; otherwise GET the
system description. -/
def SNMPManager.test_connection (mgr : SNMPManager) (env : SnmpEnv) :
    (Bool × Option String) × Nat :=
  let tchk := check_snmp_tools env
  if !tchk.1 then
    ((false, tchk.2), 0)
  else
    let ron := mgr.get env ZTEOID_SYS_DESCR
    if ron.1.success then ((true, none), ron.2) else ((false, ron.1.error), ron.2)

/-- Modelled subset of CPython `float(str)`: surrounding whitespace, an
optional sign, then decimal digits with an optional fractional part.
Exponent notation and inf/nan are outside the model; on everything else
the model returns `none`, matching the ValueError branch.  Values are
rationals: the raw optical readings are integral tenths of a dBm, on
which binary floating-point division by 10.0 is exact. -/
def pyFloatCore (cs : List Char) : Option ℚ :=
  let intPart := cs.takeWhile isDigitChar
  let rest := cs.dropWhile isDigitChar
  match rest with
  | [] => if intPart = [] then none else some ((natOfDigits intPart : ℚ))
  | c :: frac =>
    if c = '.' && frac.all isDigitChar && (intPart ≠ [] || frac ≠ []) then
      some ((natOfDigits intPart : ℚ) + (natOfDigits frac : ℚ) / (10 ^ frac.length : ℚ))
    else none

/-- Python `float(s)` (see `pyFloatCore`). -/
def pyFloat (s : String) : Option ℚ :=
  match pyStripChars s.data with
  | [] => none
  | c :: cs =>
    if c = '-' then (pyFloatCore cs).map (fun q => -q)
    else if c = '+' then pyFloatCore cs
    else pyFloatCore (c :: cs)

/-- Python truthiness of an SNMP value (`if rx_result.value`). -/
def pyTruthy : SNMPValue → Bool
  | .pynone => false
  | .str s => s ≠ ""
  | .pairs l => l ≠ []

/-- Python `float(value)` on an SNMP value.  `get` always yields a
string value, so the non-string branches are unreachable from
`get_onu_optical_power`. -/
def valueFloat : SNMPValue → Option ℚ
  | .str s => pyFloat s
  | _ => none

/-- ONU optical power record (the dict built at snmp/__init__.py:354-357). -/
structure OpticalPower where
  rx_power : Option ℚ
  tx_power : Option ℚ
  deriving DecidableEq, Repr

/-- PON-port fragment of the ONU-specific OID: `/` becomes `.`
(snmp/__init__.py:363). -/
def pon_port_oid_part (pon_port : String) : String :=
  String.mk (pon_port.data.map (fun c => if c = '/' then '.' else c))

/-- ONU optical power via SNMP (`get_onu_optical_power`,
snmp/__init__.py:343-384): each successful, truthy, numeric reading is
divided by 10 (tenths of a dBm to dBm); a non-numeric reading leaves
the field `none` (the ValueError branch). -/
def SNMPManager.get_onu_optical_power (mgr : SNMPManager) (env : SnmpEnv)
    (pon_port : String) (onu_id : Nat) : OpticalPower × Nat :=
  let rx_oid := ZTEOID_ONU_RX_POWER_BASE ++ "." ++ pon_port_oid_part pon_port ++ "." ++
    toString onu_id
  let rxn := mgr.get env rx_oid
  let rx := if rxn.1.success && pyTruthy rxn.1.value then
      (valueFloat rxn.1.value).map (fun q => q / 10)
    else none
  let tx_oid := ZTEOID_ONU_TX_POWER_BASE ++ "." ++ pon_port_oid_part pon_port ++ "." ++
    toString onu_id
  let txn := mgr.get env tx_oid
  let tx := if txn.1.success && pyTruthy txn.1.value then
      (valueFloat txn.1.value).map (fun q => q / 10)
    else none
  ({ rx_power := rx, tx_power := tx }, rxn.2 + txn.2)

/-- Hard-blocked SNMP SET (`SNMPManager.set`, snmp/__init__.py:419-428):
a constant failure result for every OID and value, with zero subprocess
invocations; the body touches neither the environment nor the manager
state. -/
def SNMPManager.set {α : Type} (mgr : SNMPManager) (oid : String) (value : α) :
    SNMPResult × Nat :=
  ({ success := false,
     error := some "SNMP SET operations are not allowed. This is a security violation." }, 0)

/-!
## Theorems for the frozen claims
-/

/-- C1: for every OID and value, `SNMPManager.set` returns the same
failure result, whose message states that SET operations are not
allowed, and attempts zero subprocess invocations; the body depends on
neither the arguments nor any environment, so the result is
deterministic and no subprocess can be involved. -/
theorem snmp_set_is_hard_blocked {α : Type} (mgr : SNMPManager) (oid : String) (value : α) :
    SNMPManager.set mgr oid value =
      ({ success := false, value := .pynone,
         error := some "SNMP SET operations are not allowed. This is a security violation." },
       0) ∧
    strHas "not allowed".data
      "SNMP SET operations are not allowed. This is a security violation.".data = true :=
  ⟨rfl, by decide⟩

/-- C4: `execute_command` is a total function of the session state; in
a non-connected state it returns the not-connected error result, sends
nothing, and its result does not depend on the device at all; and a
send/read exception is returned as a failed `CommandResult` carrying
the exception message rather than propagated. -/
theorem execute_command_total_error_handling (st : AdapterState) (hist : List String)
    (command : String) :
    (st.connected = false →
      execute_command st hist command =
        ({ success := false, output := "", error := some "Not connected to OLT" }, []) ∧
      ∀ dev : List String → String → ExecOutcome,
        execute_command { connected := false, device := dev } hist command =
          execute_command st hist command) ∧
    (∀ m, st.connected = true → st.device hist command = .exc m →
      execute_command st hist command =
        ({ success := false, output := "", error := some m }, [command])) := by
  constructor
  · intro h
    constructor
    · simp [execute_command, h]
    · intro dev
      simp [execute_command, h]
  · intro m hc hd
    simp [execute_command, hc, hd]

/-- Witness for C4 at concrete inputs: a disconnected session rejects
the command without touching the transport, and a device exception
becomes a failed result. -/
theorem execute_command_total_error_handling_witness :
    execute_command ⟨false, fun _ _ => .ok ""⟩ [] "show version" =
      ({ success := false, output := "", error := some "Not connected to OLT" }, []) ∧
    execute_command ⟨true, fun _ _ => .exc "Command timeout"⟩ [] "show version" =
      ({ success := false, output := "", error := some "Command timeout" }, ["show version"]) :=
  ⟨((execute_command_total_error_handling ⟨false, fun _ _ => .ok ""⟩ [] "show version").1
      rfl).1,
   (execute_command_total_error_handling ⟨true, fun _ _ => .exc "Command timeout"⟩ []
      "show version").2 "Command timeout" rfl rfl⟩

/-- C10: echo stripping drops the first line of the captured output
exactly when the sent command occurs anywhere in that line as a
substring, returning the whitespace-stripped join of the remaining
lines (and keeps the first line otherwise). -/
theorem strip_echo_substring_drop (command raw : String) (l0 : List Char)
    (rest : List (List Char)) (hsplit : splitNl raw.data = l0 :: rest) :
    (strHas command.data l0 = true →
      strip_echo command raw = String.mk (pyStripChars (joinNl rest))) ∧
    (strHas command.data l0 = false →
      strip_echo command raw = String.mk (pyStripChars (joinNl (l0 :: rest)))) := by
  unfold strip_echo
  rw [hsplit]
  constructor <;> intro h <;> simp [h]

/-- Witness for C10: a first line that merely contains the command as
an inner substring is dropped. -/
theorem strip_echo_substring_drop_witness :
    strip_echo "show ver" "xx show ver yy\ndata" = "data" := by
  have h := (strip_echo_substring_drop "show ver" "xx show ver yy\ndata"
      "xx show ver yy".data ["data".data] (by decide)).1 (by decide)
  rw [h]
  rfl

/-- Unfolding equation for `execute_commands` on a nonempty list. -/
theorem execute_commands_cons (st : AdapterState) (hist : List String) (c : String)
    (cs : List String) :
    execute_commands st hist (c :: cs) =
      if (execute_command st hist c).1.success = true then
        ((execute_command st hist c).1 ::
           (execute_commands st (hist ++ (execute_command st hist c).2) cs).1,
         (execute_command st hist c).2 ++
           (execute_commands st (hist ++ (execute_command st hist c).2) cs).2)
      else
        ([(execute_command st hist c).1], (execute_command st hist c).2) := by
  rcases h : execute_command st hist c with ⟨r, s⟩
  rcases h2 : execute_commands st (hist ++ s) cs with ⟨rs, ss⟩
  by_cases hs : r.success = true <;> simp [execute_commands, h, h2, hs]

/-- The result list is never longer than the command list. -/
theorem execute_commands_length_le (st : AdapterState) (hist cmds : List String) :
    (execute_commands st hist cmds).1.length ≤ cmds.length := by
  induction cmds generalizing hist with
  | nil => simp [execute_commands]
  | cons c cs ih =>
    rw [execute_commands_cons]
    by_cases hs : (execute_command st hist c).1.success = true
    · simp only [hs, if_true]
      exact Nat.succ_le_succ (ih _)
    · simp [hs]

/-- Every result before the last one is a success. -/
theorem execute_commands_init_success (st : AdapterState) (hist cmds : List String) :
    ∀ i, i + 1 < (execute_commands st hist cmds).1.length →
      ((execute_commands st hist cmds).1.getD i { success := true, output := "" }).success =
        true := by
  induction cmds generalizing hist with
  | nil => simp [execute_commands]
  | cons c cs ih =>
    rw [execute_commands_cons]
    by_cases hs : (execute_command st hist c).1.success = true
    · simp only [hs, if_true]
      intro i hi
      cases i with
      | zero => simpa using hs
      | succ j =>
        simp only [List.length_cons, Nat.add_lt_add_iff_right] at hi
        simpa using ih _ j hi
    · simp [hs]

/-- A short result list ends in a failure. -/
theorem execute_commands_short_ends_failed (st : AdapterState) (hist cmds : List String) :
    (execute_commands st hist cmds).1.length < cmds.length →
      ∃ r, (execute_commands st hist cmds).1.getLast? = some r ∧ r.success = false := by
  induction cmds generalizing hist with
  | nil => simp [execute_commands]
  | cons c cs ih =>
    rw [execute_commands_cons]
    by_cases hs : (execute_command st hist c).1.success = true
    · simp only [hs, if_true]
      intro hlt
      simp only [List.length_cons, Nat.add_lt_add_iff_right] at hlt
      obtain ⟨r, hlast, hfail⟩ := ih (hist ++ (execute_command st hist c).2) hlt
      refine ⟨r, ?_, hfail⟩
      cases h2 : (execute_commands st (hist ++ (execute_command st hist c).2) cs).1 with
      | nil => rw [h2] at hlast; simp at hlast
      | cons a l =>
        rw [h2] at hlast
        rw [List.getLast?_cons_cons]
        exact hlast
    · intro _
      simp [hs]

/-- On a connected session, the commands sent to the transport are
exactly the executed prefix of the command list. -/
theorem execute_commands_sends_prefix (st : AdapterState) (hist cmds : List String)
    (hc : st.connected = true) :
    (execute_commands st hist cmds).2 = cmds.take (execute_commands st hist cmds).1.length := by
  induction cmds generalizing hist with
  | nil => simp [execute_commands]
  | cons c cs ih =>
    have hsend : (execute_command st hist c).2 = [c] := by
      unfold execute_command
      rw [hc]
      cases st.device hist c <;> simp
    rw [execute_commands_cons]
    by_cases hs : (execute_command st hist c).1.success = true
    · simp only [hs, if_true, hsend, List.length_cons, List.take_succ_cons,
        List.singleton_append, List.cons.injEq, true_and]
      exact ih _
    · simp [hs, hsend]

/-- On a disconnected session nothing is ever sent to the transport. -/
theorem execute_commands_sends_nothing (st : AdapterState) (hist cmds : List String)
    (hc : st.connected = false) :
    (execute_commands st hist cmds).2 = [] := by
  cases cmds with
  | nil => simp [execute_commands]
  | cons c cs =>
    have hstep : execute_command st hist c =
        ({ success := false, output := "", error := some "Not connected to OLT" }, []) := by
      simp [execute_command, hc]
    rw [execute_commands_cons, hstep]
    simp

/-- C3: `execute_commands` runs the commands in order and stops at the
first failing result: the result list is never longer than the input,
everything before its last element succeeded, a shortened result list
ends in a failure, the transport receives exactly the executed prefix
(and nothing when disconnected); in particular, for three commands
whose second fails, exactly two results come back and the third command
is never sent. -/
theorem execute_commands_stop_on_first_failure (st : AdapterState) (hist cmds : List String) :
    ((execute_commands st hist cmds).1.length ≤ cmds.length) ∧
    (∀ i, i + 1 < (execute_commands st hist cmds).1.length →
      ((execute_commands st hist cmds).1.getD i { success := true, output := "" }).success =
        true) ∧
    ((execute_commands st hist cmds).1.length < cmds.length →
      ∃ r, (execute_commands st hist cmds).1.getLast? = some r ∧ r.success = false) ∧
    (st.connected = true →
      (execute_commands st hist cmds).2 =
        cmds.take (execute_commands st hist cmds).1.length) ∧
    (st.connected = false → (execute_commands st hist cmds).2 = []) ∧
    (execute_commands
        ⟨true, fun _ c => if c = "c2" then .exc "simulated failure" else .ok ""⟩
        [] ["c1", "c2", "c3"] =
      ([{ success := true, output := "" },
        { success := false, output := "", error := some "simulated failure" }],
       ["c1", "c2"])) :=
  ⟨execute_commands_length_le st hist cmds,
   execute_commands_init_success st hist cmds,
   execute_commands_short_ends_failed st hist cmds,
   execute_commands_sends_prefix st hist cmds,
   execute_commands_sends_nothing st hist cmds,
   by decide⟩

/-- Witness for C3 at concrete inputs: the sends of a connected session
are the executed prefix, a disconnected session sends nothing, and the
three-command example returns two results. -/
theorem execute_commands_stop_on_first_failure_witness :
    (execute_commands ⟨true, fun _ _ => .ok "done"⟩ [] ["a", "b"]).2 =
      ["a", "b"].take (execute_commands ⟨true, fun _ _ => .ok "done"⟩ [] ["a", "b"]).1.length ∧
    (execute_commands ⟨false, fun _ _ => .ok "done"⟩ [] ["a", "b"]).2 = [] ∧
    execute_commands
        ⟨true, fun _ c => if c = "c2" then .exc "simulated failure" else .ok ""⟩
        [] ["c1", "c2", "c3"] =
      ([{ success := true, output := "" },
        { success := false, output := "", error := some "simulated failure" }],
       ["c1", "c2"]) :=
  ⟨(execute_commands_stop_on_first_failure ⟨true, fun _ _ => .ok "done"⟩ [] ["a", "b"]).2.2.2.1
     rfl,
   (execute_commands_stop_on_first_failure ⟨false, fun _ _ => .ok "done"⟩ [] ["a", "b"]).2.2.2.2.1
     rfl,
   (execute_commands_stop_on_first_failure ⟨true, fun _ _ => .ok ""⟩ [] []).2.2.2.2.2⟩

/-- The sanitized ONU name is at most 32 characters long and contains
no space. -/
theorem sanitize_name_sound (name : String) :
    (sanitize_name name).length ≤ 32 ∧ ' ' ∉ (sanitize_name name).data := by
  constructor
  · show (sanitize_name name).data.length ≤ 32
    simp only [sanitize_name]
    rw [List.length_take]
    exact min_le_left _ _
  · intro hmem
    simp only [sanitize_name] at hmem
    have := List.mem_of_mem_take hmem
    obtain ⟨c, _, hc⟩ := List.mem_map.mp this
    by_cases h : c = ' ' <;> simp [h] at hc

/-- The three landmark commands of the claim occur in relative order in
a register sequence of the given shape. -/
theorem register_landmarks_sublist (pon_port : String) (onu_id : Nat)
    (serial_number name line_profile service_profile : String) (vlan : Nat)
    (service_port : Option Nat) :
    ["interface gpon-olt_" ++ pon_port,
     "onu " ++ toString onu_id ++ " type auto sn " ++ serial_number,
     "service-port 1 vport 1 user-vlan " ++ toString vlan ++ " vlan " ++
       toString vlan].Sublist
      (ZTEC300Adapter.get_register_onu_commands pon_port onu_id serial_number name
        line_profile service_profile vlan service_port) := by
  unfold ZTEC300Adapter.get_register_onu_commands
  by_cases hn : name = ""
  · rw [if_neg (not_not_intro hn)]
    simp only [List.cons_append, List.nil_append]
    exact .cons _ (.cons₂ _ (.cons₂ _ (.cons _ (.cons _ (.cons _ (.cons _ (.cons _
      (.cons₂ _ (List.nil_sublist _)))))))))
  · rw [if_pos hn]
    simp only [List.cons_append, List.nil_append]
    exact .cons _ (.cons₂ _ (.cons₂ _ (.cons _ (.cons _ (.cons _ (.cons _ (.cons _
      (.cons _ (.cons₂ _ (List.nil_sublist _))))))))))

/-- The same landmark commands occur in relative order in the C320
register sequence. -/
theorem register_landmarks_sublist_c320 (pon_port : String) (onu_id : Nat)
    (serial_number name line_profile service_profile : String) (vlan : Nat)
    (service_port : Option Nat) :
    ["interface gpon-olt_" ++ pon_port,
     "onu " ++ toString onu_id ++ " type auto sn " ++ serial_number,
     "service-port 1 vport 1 user-vlan " ++ toString vlan ++ " vlan " ++
       toString vlan].Sublist
      (ZTEC320Adapter.get_register_onu_commands pon_port onu_id serial_number name
        line_profile service_profile vlan service_port) := by
  unfold ZTEC320Adapter.get_register_onu_commands
  by_cases hn : name = ""
  · rw [if_neg (not_not_intro hn)]
    simp only [List.cons_append, List.nil_append]
    exact .cons _ (.cons₂ _ (.cons₂ _ (.cons _ (.cons _ (.cons _ (.cons _ (.cons _
      (.cons₂ _ (List.nil_sublist _)))))))))
  · rw [if_pos hn]
    simp only [List.cons_append, List.nil_append]
    exact .cons _ (.cons₂ _ (.cons₂ _ (.cons _ (.cons _ (.cons _ (.cons _ (.cons _
      (.cons _ (.cons₂ _ (List.nil_sublist _))))))))))

/-- C6: for every provisioning request, both models synthesize the
fixed-shape register sequence: it opens with `configure terminal`, has
eleven commands plus an optional name command, contains the PON
interface entry, the serial binding and the service-port binding in
relative order, and when a name is given the sequence carries the
sanitized name (spaces replaced by underscores, truncated to 32
characters, hence space-free). -/
theorem register_command_synthesis_shape (pon_port : String) (onu_id : Nat)
    (serial_number name line_profile service_profile : String) (vlan : Nat)
    (service_port : Option Nat) :
    (["interface gpon-olt_" ++ pon_port,
      "onu " ++ toString onu_id ++ " type auto sn " ++ serial_number,
      "service-port 1 vport 1 user-vlan " ++ toString vlan ++ " vlan " ++
        toString vlan].Sublist
       (ZTEC300Adapter.get_register_onu_commands pon_port onu_id serial_number name
         line_profile service_profile vlan service_port)) ∧
    (["interface gpon-olt_" ++ pon_port,
      "onu " ++ toString onu_id ++ " type auto sn " ++ serial_number,
      "service-port 1 vport 1 user-vlan " ++ toString vlan ++ " vlan " ++
        toString vlan].Sublist
       (ZTEC320Adapter.get_register_onu_commands pon_port onu_id serial_number name
         line_profile service_profile vlan service_port)) ∧
    ((ZTEC300Adapter.get_register_onu_commands pon_port onu_id serial_number name
        line_profile service_profile vlan service_port).head? =
      some "configure terminal") ∧
    ((ZTEC300Adapter.get_register_onu_commands pon_port onu_id serial_number name
        line_profile service_profile vlan service_port).length =
      if name = "" then 11 else 12) ∧
    (name ≠ "" →
      ("name " ++ sanitize_name name) ∈
        ZTEC300Adapter.get_register_onu_commands pon_port onu_id serial_number name
          line_profile service_profile vlan service_port ∧
      ("name " ++ sanitize_name name) ∈
        ZTEC320Adapter.get_register_onu_commands pon_port onu_id serial_number name
          line_profile service_profile vlan service_port ∧
      (sanitize_name name).length ≤ 32 ∧ ' ' ∉ (sanitize_name name).data) := by
  refine ⟨register_landmarks_sublist pon_port onu_id serial_number name line_profile
      service_profile vlan service_port,
    register_landmarks_sublist_c320 pon_port onu_id serial_number name line_profile
      service_profile vlan service_port, ?_, ?_, ?_⟩
  · by_cases hn : name = "" <;>
      simp [ZTEC300Adapter.get_register_onu_commands, hn]
  · by_cases hn : name = "" <;>
      simp [ZTEC300Adapter.get_register_onu_commands, hn]
  · intro hn
    refine ⟨?_, ?_, sanitize_name_sound name⟩
    · simp [ZTEC300Adapter.get_register_onu_commands, hn]
    · simp [ZTEC320Adapter.get_register_onu_commands, hn]

/-- Witness for C6 at the claim's concrete request: the three landmark
commands appear in order and the name command is sanitized. -/
theorem register_command_synthesis_shape_witness :
    ["interface gpon-olt_1/1/2",
     "onu 5 type auto sn ZTEGC1234567",
     "service-port 1 vport 1 user-vlan 100 vlan 100"].Sublist
      (ZTEC300Adapter.get_register_onu_commands "1/1/2" 5 "ZTEGC1234567" "my onu"
        "default" "default" 100 none) ∧
    ("name my_onu" ∈
      ZTEC300Adapter.get_register_onu_commands "1/1/2" 5 "ZTEGC1234567" "my onu"
        "default" "default" 100 none) := by
  have h := register_command_synthesis_shape "1/1/2" 5 "ZTEGC1234567" "my onu"
    "default" "default" 100 none
  constructor
  · have h1 := h.1
    simpa using h1
  · have h5 := (h.2.2.2.2 (by decide)).1
    have hs : "name " ++ sanitize_name "my onu" = "name my_onu" := by decide
    rwa [hs] at h5

/-- The failure message the scanning loop produces for step `n`
(1-based) and result `r`: transport failure first, in-band error text
otherwise. -/
def step_message (n : Nat) (r : CommandResult) : String :=
  if r.success = false then
    "Command failed at step " ++ toString n ++ ": " ++ pyOptStr r.error
  else
    "OLT error at step " ++ toString n ++ ": " ++ r.output

/-- The raw device/transport message of a failing step. -/
def step_raw (r : CommandResult) : String :=
  if r.success = false then pyOptStr r.error else r.output

/-- Every list starts with itself. -/
theorem startsWithCS_append_self (s t : List Char) : startsWithCS s (s ++ t) = true := by
  induction s with
  | nil => rfl
  | cons c cs ih => simp [startsWithCS, ih]

/-- The empty needle occurs in every haystack. -/
theorem strHas_nil_needle (h : List Char) : strHas [] h = true := by
  induction h with
  | nil => rfl
  | cons c cs ih => simp [strHas, ih]

/-- Substring containment survives prepending. -/
theorem strHas_append_left (x n r : List Char) (h : strHas n r = true) :
    strHas n (x ++ r) = true := by
  induction x with
  | nil => simpa using h
  | cons c cs ih => simp [strHas, ih]

/-- A list occurs in itself followed by anything. -/
theorem strHas_here (n t : List Char) : strHas n (n ++ t) = true := by
  cases n with
  | nil => exact strHas_nil_needle t
  | cons c cs => simp [strHas, startsWithCS, startsWithCS_append_self]

/-- A middle component of a string concatenation is a substring. -/
theorem strHas_string_infix (a n b : String) : strHas n.data (a ++ n ++ b).data = true := by
  have h : (a ++ n ++ b).data = a.data ++ (n.data ++ b.data) := by
    show (a.data ++ n.data) ++ b.data = a.data ++ (n.data ++ b.data)
    exact List.append_assoc _ _ _
  rw [h]
  exact strHas_append_left _ _ _ (strHas_here _ _)

/-- A final component of a string concatenation is a substring. -/
theorem strHas_string_suffix (a n : String) : strHas n.data (a ++ n).data = true := by
  show strHas n.data (a.data ++ n.data) = true
  have := strHas_here n.data []
  rw [List.append_nil] at this
  exact strHas_append_left _ _ _ this

/-- The scanning loop reports the first failing step with its 1-based
index counted from `k`, provided every earlier step is clean. -/
theorem check_sequence_results_reports (rs : List CommandResult) (k i : Nat)
    (hi : i < rs.length)
    (hgood : ∀ j, j < i →
      ((rs.getD j { success := true, output := "" }).success = true ∧
       check_error_in_output (rs.getD j { success := true, output := "" }).output = false))
    (hbad : (rs.getD i { success := true, output := "" }).success = false ∨
      ((rs.getD i { success := true, output := "" }).success = true ∧
       check_error_in_output (rs.getD i { success := true, output := "" }).output = true)) :
    check_sequence_results k rs =
      (false, some (step_message (k + i + 1) (rs.getD i { success := true, output := "" }))) := by
  induction rs generalizing k i with
  | nil => simp at hi
  | cons r rs' ih =>
    cases i with
    | zero =>
      simp only [List.getD_cons_zero] at hbad ⊢
      rcases hbad with hfail | ⟨hsucc, herr⟩
      · simp [check_sequence_results, hfail, step_message]
      · simp [check_sequence_results, hsucc, herr, step_message]
    | succ j =>
      have hgr := hgood 0 (Nat.succ_pos j)
      simp only [List.getD_cons_zero] at hgr
      have hstep : check_sequence_results k (r :: rs') = check_sequence_results (k + 1) rs' := by
        simp [check_sequence_results, hgr.1, hgr.2]
      rw [hstep]
      simp only [List.getD_cons_succ] at hbad ⊢
      have harith : k + 1 + j + 1 = k + (j + 1) + 1 := by omega
      rw [← harith]
      exact ih (k + 1) j (by simpa using hi)
        (fun j' hj' => by simpa using hgood (j' + 1) (Nat.succ_lt_succ hj')) hbad

/-- The step message contains the printed 1-based index and the raw
device/transport message of the failing step. -/
theorem step_message_contains (n : Nat) (r : CommandResult) :
    strHas (toString n).data (step_message n r).data = true ∧
    strHas (step_raw r).data (step_message n r).data = true := by
  unfold step_message step_raw
  by_cases h : r.success = false
  · rw [if_pos h, if_pos h]
    constructor
    · rw [String.append_assoc]
      exact strHas_string_infix "Command failed at step " (toString n)
        (": " ++ pyOptStr r.error)
    · exact strHas_string_suffix ("Command failed at step " ++ toString n ++ ": ")
        (pyOptStr r.error)
  · rw [if_neg h, if_neg h]
    constructor
    · rw [String.append_assoc]
      exact strHas_string_infix "OLT error at step " (toString n) (": " ++ r.output)
    · exact strHas_string_suffix ("OLT error at step " ++ toString n ++ ": ") r.output

/-- C7: whenever a step of a multi-step operation fails — its result
has `success = false`, or its output contains an in-band error keyword
— both `register_onu` and `delete_onu` return `(false, message)` with
the message naming the 1-based index of the first failing step and
containing the raw device/transport message; the failure is never
hidden. -/
theorem multi_step_failure_reporting (st : AdapterState) (commands : List String) (i : Nat)
    (hi : i < (execute_commands st [] commands).1.length)
    (hgood : ∀ j, j < i →
      (((execute_commands st [] commands).1.getD j { success := true, output := "" }).success =
         true ∧
       check_error_in_output
         ((execute_commands st [] commands).1.getD j { success := true, output := "" }).output =
         false))
    (hbad :
      ((execute_commands st [] commands).1.getD i { success := true, output := "" }).success =
        false ∨
      (((execute_commands st [] commands).1.getD i { success := true, output := "" }).success =
         true ∧
       check_error_in_output
         ((execute_commands st [] commands).1.getD i { success := true, output := "" }).output =
         true)) :
    ZTEBaseAdapter.register_onu st commands =
      (false, some (step_message (i + 1)
        ((execute_commands st [] commands).1.getD i { success := true, output := "" }))) ∧
    ZTEBaseAdapter.delete_onu st commands =
      (false, some (step_message (i + 1)
        ((execute_commands st [] commands).1.getD i { success := true, output := "" }))) ∧
    strHas (toString (i + 1)).data
      (step_message (i + 1)
        ((execute_commands st [] commands).1.getD i { success := true, output := "" })).data =
      true ∧
    strHas (step_raw
        ((execute_commands st [] commands).1.getD i { success := true, output := "" })).data
      (step_message (i + 1)
        ((execute_commands st [] commands).1.getD i { success := true, output := "" })).data =
      true := by
  have hrep := check_sequence_results_reports (execute_commands st [] commands).1 0 i hi
    hgood hbad
  rw [Nat.zero_add] at hrep
  exact ⟨hrep, hrep, step_message_contains _ _⟩

/-- Witness for C7: a first-step transport failure is reported with
its index and message by both operations. -/
theorem multi_step_failure_reporting_witness :
    ZTEBaseAdapter.register_onu ⟨true, fun _ _ => .exc "boom"⟩ ["bad"] =
      (false, some "Command failed at step 1: boom") ∧
    ZTEBaseAdapter.delete_onu ⟨true, fun _ _ => .exc "boom"⟩ ["bad"] =
      (false, some "Command failed at step 1: boom") := by
  have h := multi_step_failure_reporting ⟨true, fun _ _ => .exc "boom"⟩ ["bad"] 0
    (by decide) (fun j hj => absurd hj (by omega)) (Or.inl (by decide))
  exact ⟨h.1.trans (by decide), h.2.1.trans (by decide)⟩

/-- C8: whenever the SNMP GET for the rx (resp. tx) optical-power OID
succeeds with a numeric string value, `get_onu_optical_power` returns
that value divided by 10 in the corresponding field — the raw device
reading is in tenths of a dBm. -/
theorem optical_power_tenths_conversion (mgr : SNMPManager) (env : SnmpEnv)
    (pon_port : String) (onu_id : Nat) :
    (∀ s q, (mgr.get env (ZTEOID_ONU_RX_POWER_BASE ++ "." ++ pon_port_oid_part pon_port ++
          "." ++ toString onu_id)).1 = { success := true, value := .str s } →
      pyFloat s = some q →
      (mgr.get_onu_optical_power env pon_port onu_id).1.rx_power = some (q / 10)) ∧
    (∀ s q, (mgr.get env (ZTEOID_ONU_TX_POWER_BASE ++ "." ++ pon_port_oid_part pon_port ++
          "." ++ toString onu_id)).1 = { success := true, value := .str s } →
      pyFloat s = some q →
      (mgr.get_onu_optical_power env pon_port onu_id).1.tx_power = some (q / 10)) := by
  have hempty : pyFloat "" = none := rfl
  constructor
  · intro s q hget hq
    have hs : s ≠ "" := by
      intro h
      rw [h, hempty] at hq
      cases hq
    simp only [SNMPManager.get_onu_optical_power, hget]
    simp [pyTruthy, valueFloat, hs, hq]
  · intro s q hget hq
    have hs : s ≠ "" := by
      intro h
      rw [h, hempty] at hq
      cases hq
    simp only [SNMPManager.get_onu_optical_power, hget]
    simp [pyTruthy, valueFloat, hs, hq]

/-- Witness for C8: a raw device reading of "-250" yields an rx power
of -25 dBm. -/
theorem optical_power_tenths_conversion_witness :
    ((SNMPManager.mk "192.0.2.10" "public" 161 5 2).get_onu_optical_power
        ⟨true, true, true, fun _ => .completed ⟨0, "-250", ""⟩⟩ "1/1/1" 1).1.rx_power =
      some (-25 : ℚ) := by
  have h := (optical_power_tenths_conversion (SNMPManager.mk "192.0.2.10" "public" 161 5 2)
      ⟨true, true, true, fun _ => .completed ⟨0, "-250", ""⟩⟩ "1/1/1" 1).1 "-250"
    (-250 : ℚ) (by decide) (by decide)
  rw [h]
  norm_num

/-- C2 (amended): when a required SNMP utility is missing,
`test_connection` fails immediately with a message naming each missing
utility and zero subprocess invocations; the data-fetch operations
`get`, `walk` and `get_bulk` fail immediately with a message naming the
snmp utilities and never consult the process-execution environment (so
no network round trip or timeout occurs), but they do attempt
subprocess invocations — one for `get` and `walk`, two for `get_bulk`
through its walk fallback — which fail fast on the missing
executable. -/
theorem snmp_missing_tools_behavior (mgr : SNMPManager) (env : SnmpEnv) (oid : String) :
    (env.hasSnmpget = false ∨ env.hasSnmpwalk = false →
      mgr.test_connection env = ((false, (check_snmp_tools env).2), 0) ∧
      ∃ m, (check_snmp_tools env).2 = some m ∧
        (env.hasSnmpget = false → strHas "snmpget".data m.data = true) ∧
        (env.hasSnmpwalk = false → strHas "snmpwalk".data m.data = true)) ∧
    (env.hasSnmpget = false →
      mgr.get env oid =
        ({ success := false,
           error := some "snmp tools not installed (snmpget/snmpwalk not found)" }, 1) ∧
      ∀ f, mgr.get { env with exec := f } oid = mgr.get env oid) ∧
    (env.hasSnmpwalk = false →
      mgr.walk env oid =
        ({ success := false,
           error := some "snmp tools not installed (snmpget/snmpwalk not found)" }, 1) ∧
      ∀ f, mgr.walk { env with exec := f } oid = mgr.walk env oid) ∧
    (env.hasSnmpbulkget = false → env.hasSnmpwalk = false →
      mgr.get_bulk env oid =
        ({ success := false,
           error := some "snmp tools not installed (snmpget/snmpwalk not found)" }, 2) ∧
      ∀ f, mgr.get_bulk { env with exec := f } oid = mgr.get_bulk env oid) := by
  obtain ⟨g, w, b, f⟩ := env
  refine ⟨?_, ?_, ?_, ?_⟩
  · intro h
    constructor
    · cases g <;> cases w <;>
        simp_all [SNMPManager.test_connection, check_snmp_tools]
    · cases g <;> cases w
      · exact ⟨"SNMP tools not found on server (snmpget, snmpwalk). Please install the " ++
            String.mk [aposChar] ++ "snmp" ++ String.mk [aposChar] ++
            " package: sudo apt install snmp", rfl, fun _ => by decide, fun _ => by decide⟩
      · exact ⟨"SNMP tools not found on server (snmpget). Please install the " ++
            String.mk [aposChar] ++ "snmp" ++ String.mk [aposChar] ++
            " package: sudo apt install snmp", rfl, fun _ => by decide,
          fun hw => Bool.noConfusion hw⟩
      · exact ⟨"SNMP tools not found on server (snmpwalk). Please install the " ++
            String.mk [aposChar] ++ "snmp" ++ String.mk [aposChar] ++
            " package: sudo apt install snmp", rfl, fun hg => Bool.noConfusion hg,
          fun _ => by decide⟩
      · rcases h with h | h <;> exact Bool.noConfusion h
  · intro hg
    subst hg
    exact ⟨by simp [SNMPManager.get, _run_snmp_command, toolPresent],
      fun f' => by simp [SNMPManager.get, _run_snmp_command, toolPresent]⟩
  · intro hw
    subst hw
    exact ⟨by simp [SNMPManager.walk, _run_snmp_command, toolPresent],
      fun f' => by simp [SNMPManager.walk, _run_snmp_command, toolPresent]⟩
  · intro hb hw
    subst hb
    subst hw
    exact ⟨by simp [SNMPManager.get_bulk, SNMPManager.walk, _run_snmp_command, toolPresent],
      fun f' => by
        simp [SNMPManager.get_bulk, SNMPManager.walk, _run_snmp_command, toolPresent]⟩

/-- Counterexample to C2 as stated: with the SNMP utilities absent, a
data-fetch `get` still attempts one subprocess invocation (the
`subprocess.run` call, which raises FileNotFoundError and is caught),
not zero. -/
theorem snmp_get_missing_tools_attempts_subprocess :
    ((SNMPManager.mk "192.0.2.1" "public" 161 5 2).get
        ⟨false, false, false, fun _ => .timedOut⟩ "1.3.6.1.2.1.1.1.0").2 = 1 ∧
    ¬(((SNMPManager.mk "192.0.2.1" "public" 161 5 2).get
        ⟨false, false, false, fun _ => .timedOut⟩ "1.3.6.1.2.1.1.1.0").2 = 0) := by
  decide

/-- Witness for the amended C2 at a concrete tool-less environment. -/
theorem snmp_missing_tools_behavior_witness :
    (SNMPManager.mk "192.0.2.1" "public" 161 5 2).test_connection
        ⟨false, false, false, fun _ => .timedOut⟩ =
      ((false, some ("SNMP tools not found on server (snmpget, snmpwalk). Please install the " ++
         String.mk [aposChar] ++ "snmp" ++ String.mk [aposChar] ++
         " package: sudo apt install snmp")), 0) ∧
    (SNMPManager.mk "192.0.2.1" "public" 161 5 2).get
        ⟨false, false, false, fun _ => .timedOut⟩ "1.3.6.1.2.1.1.1.0" =
      ({ success := false,
         error := some "snmp tools not installed (snmpget/snmpwalk not found)" }, 1) ∧
    (SNMPManager.mk "192.0.2.1" "public" 161 5 2).get_bulk
        ⟨false, false, false, fun _ => .timedOut⟩ "1.3.6.1.2.1.1.1.0" =
      ({ success := false,
         error := some "snmp tools not installed (snmpget/snmpwalk not found)" }, 2) := by
  have h := snmp_missing_tools_behavior (SNMPManager.mk "192.0.2.1" "public" 161 5 2)
    ⟨false, false, false, fun _ => .timedOut⟩ "1.3.6.1.2.1.1.1.0"
  exact ⟨(h.1 (Or.inl rfl)).1.trans (by decide), (h.2.1 rfl).1, (h.2.2.2 rfl rfl).1⟩

/-- A pattern that opens with a literal can only match where the
literal occurs; if the literal occurs nowhere, the scan finds nothing. -/
theorem reFindAux_nil_of_not_strHas (s : List Char) (rest : List RElem) (fuel : Nat)
    (cs : List Char) (h : strHas s cs = false) :
    reFindAux (.simple (.lit s) :: rest) fuel cs = [] := by
  induction fuel generalizing cs with
  | zero => rfl
  | succ n ih =>
    have hstart : startsWithCS s cs = false := by
      cases cs with
      | nil => exact h
      | cons c cs' =>
        simp only [strHas, Bool.or_eq_false_iff] at h
        exact h.1
    have hme : mEAll (.simple (.lit s) :: rest) cs = [] := by
      simp [mEAll, mGAll, hstart]
    cases cs with
    | nil => simp [reFindAux, hme]
    | cons c cs' =>
      have h2 : strHas s cs' = false := by
        simp only [strHas, Bool.or_eq_false_iff] at h
        exact h.2
      simp [reFindAux, hme, ih cs' h2]

/-- C9: the discovery parser is total and silently skips non-matching
text: whenever the discovery command structurally succeeds,
`discover_onus` returns success with the parsed list and no error, and
output in which the literal `gpon-onu_` never occurs parses to the
empty list — so completely unrecognized output yields `(true, [], none)`
rather than a parse error. -/
theorem discovery_total_and_skips_unmatched (st : AdapterState)
    (typeMap : List (String × String)) (output : String) :
    ((execute_command st [] get_unconfigured_onu_command).1.success = true →
      ZTEBaseAdapter.discover_onus st typeMap =
        (true,
         parse_unconfigured_onus typeMap
           (execute_command st [] get_unconfigured_onu_command).1.output,
         none)) ∧
    (strHas "gpon-onu_".data output.data = false →
      parse_unconfigured_onus typeMap output = []) := by
  constructor
  · intro h
    simp [ZTEBaseAdapter.discover_onus, h]
  · intro h
    simp only [parse_unconfigured_onus, reFindAll, onuLinePattern]
    rw [reFindAux_nil_of_not_strHas _ _ _ _ h]
    rfl

/-- Witness for C9: a connected session whose device reports
unrecognized text yields success with an empty discovery list. -/
theorem discovery_total_and_skips_unmatched_witness :
    ZTEBaseAdapter.discover_onus ⟨true, fun _ _ => .ok "no related information"⟩
      type_map_c300 = (true, [], none) := by
  have h := discovery_total_and_skips_unmatched
    ⟨true, fun _ _ => .ok "no related information"⟩ type_map_c300
    (execute_command ⟨true, fun _ _ => .ok "no related information"⟩ []
      get_unconfigured_onu_command).1.output
  rw [h.1 (by decide), h.2 (by decide)]

/-!
## Well-formed discovery output

The spec's discovery line grammar
(`gpon-onu_<slot>/<card>/<port>:<onu_id>  <serial>  <status>`,
whitespace-delimited, one device per line) is modelled by `UncfgRow`:
nonempty digit groups, nonempty space runs as separators, nonempty
whitespace-free serial and status tokens, one line per row.  The
theorems below show the source parser maps such output to exactly one
`ONUDiscoveryResult` per row, in document order.
-/

/-- A nonempty, all-digit field. -/
def wfDigits (cs : List Char) : Prop := cs ≠ [] ∧ ∀ c ∈ cs, isDigitChar c = true

/-- A nonempty all-space separator run. -/
def wfSpaces (cs : List Char) : Prop := cs ≠ [] ∧ ∀ c ∈ cs, c = ' '

/-- A nonempty whitespace-free token. -/
def wfToken (cs : List Char) : Prop := cs ≠ [] ∧ ∀ c ∈ cs, pyWsChar c = false

instance (cs : List Char) : Decidable (wfDigits cs) := inferInstanceAs (Decidable (_ ∧ _))

instance (cs : List Char) : Decidable (wfSpaces cs) := inferInstanceAs (Decidable (_ ∧ _))

instance (cs : List Char) : Decidable (wfToken cs) := inferInstanceAs (Decidable (_ ∧ _))

/-- One well-formed discovery row: the fields of one output line. -/
structure UncfgRow where
  slot : List Char
  card : List Char
  pport : List Char
  onuDigits : List Char
  sep1 : List Char
  serial : List Char
  sep2 : List Char
  status : List Char

/-- Well-formedness of a row per the discovery line grammar. -/
def UncfgRow.WF (row : UncfgRow) : Prop :=
  wfDigits row.slot ∧ wfDigits row.card ∧ wfDigits row.pport ∧ wfDigits row.onuDigits ∧
  wfSpaces row.sep1 ∧ wfToken row.serial ∧ wfSpaces row.sep2 ∧ wfToken row.status

instance (row : UncfgRow) : Decidable row.WF :=
  inferInstanceAs (Decidable (_ ∧ _ ∧ _ ∧ _ ∧ _ ∧ _ ∧ _ ∧ _))

/-- The rendered text of one row (without the line break). -/
def UncfgRow.line (row : UncfgRow) : List Char :=
  "gpon-onu_".data ++ (row.slot ++ ('/' :: (row.card ++ ('/' :: (row.pport ++
    (':' :: (row.onuDigits ++ (row.sep1 ++ (row.serial ++ (row.sep2 ++
      row.status))))))))))

/-- The rendered discovery output: one line per row, each ended by a
line break. -/
def renderRows : List UncfgRow → List Char
  | [] => []
  | row :: rest => row.line ++ (Char.ofNat 10 :: renderRows rest)

/-- The `DiscoveredONU` the parser is expected to produce for a row. -/
def UncfgRow.result (typeMap : List (String × String)) (row : UncfgRow) :
    ONUDiscoveryResult :=
  { pon_port := String.mk (row.slot ++ '/' :: row.card ++ '/' :: row.pport),
    onu_id := natOfDigits row.onuDigits,
    serial_number := String.mk row.serial,
    onu_type := detect_onu_type typeMap (String.mk row.serial),
    status := String.mk row.status }

/-- A failing head character stops `takeWhile` immediately. -/
theorem takeWhile_nil_of_head_neg (p : Char → Bool) (c : Char) (z : List Char)
    (h : p c = false) : (c :: z).takeWhile p = [] := by
  simp [List.takeWhile_cons, h]

/-- Whitespace scanning stops at a whitespace-free token. -/
theorem takeWhile_ws_nil_of_token (tok z : List Char) (h : wfToken tok) :
    (tok ++ z).takeWhile wsRe = [] := by
  cases tok with
  | nil => exact absurd rfl h.1
  | cons c cs =>
    exact takeWhile_nil_of_head_neg _ _ _ (by simpa [wsRe] using h.2 c (by simp))

/-- A scan for non-space characters stops at a space run. -/
theorem takeWhile_nil_of_spaces (p : Char → Bool) (sp z : List Char) (h : wfSpaces sp)
    (hp : p ' ' = false) : (sp ++ z).takeWhile p = [] := by
  cases sp with
  | nil => exact absurd rfl h.1
  | cons c cs =>
    have hc : c = ' ' := h.2 c (by simp)
    exact takeWhile_nil_of_head_neg _ _ _ (hc ▸ hp)

/-- A greedy `p+` whose maximal run has length `m + 1` tries that run
first. -/
theorem plusGCounts_eq_cons (p : Char → Bool) (cs : List Char) (m : Nat)
    (h : runLen p cs = m + 1) :
    ∃ ks, plusGCounts p cs = (m + 1) :: ks := by
  rw [plusGCounts, h, List.range_succ_eq_map]
  exact ⟨List.map ((fun i => m + 1 - i) ∘ Nat.succ) (List.range m), by simp⟩

/-- Stepping a greedy `p+` over its full run: the first candidate
consumes exactly the run, leaving the continuation on the rest. -/
theorem mGAll_plusG_run (p : Char → Bool) (gs : List GElem) (run r : List Char)
    (hne : run ≠ []) (hall : ∀ c ∈ run, p c = true) (hstop : r.takeWhile p = []) :
    ∃ t, mGAll (.plusG p :: gs) (run ++ r) = mGAll gs r ++ t := by
  have htw : (run ++ r).takeWhile p = run := by
    rw [List.takeWhile_append_of_pos hall, hstop, List.append_nil]
  obtain ⟨m, hm⟩ : ∃ m, run.length = m + 1 := by
    cases run with
    | nil => exact absurd rfl hne
    | cons c cs => exact ⟨cs.length, rfl⟩
  obtain ⟨ks, hks⟩ := plusGCounts_eq_cons p (run ++ r) m (by rw [runLen, htw, hm])
  refine ⟨ks.flatMap (fun k => mGAll gs ((run ++ r).drop k)), ?_⟩
  simp only [mGAll, hks, List.flatMap_cons]
  rw [← hm, List.drop_left]

/-- Stepping a literal over itself. -/
theorem mGAll_lit_self (s : List Char) (gs : List GElem) (r : List Char) :
    mGAll (.lit s :: gs) (s ++ r) = mGAll gs r := by
  simp [mGAll, startsWithCS_append_self, List.drop_left]

/-- The first candidate of the slot/card/port capture group consumes
the three digit groups and their slashes, leaving the rest. -/
theorem mGAll_slot_group (slot card pport r : List Char)
    (h1 : wfDigits slot) (h2 : wfDigits card) (h3 : wfDigits pport)
    (hstop : r.takeWhile isDigitChar = []) :
    ∃ t, mGAll [.plusG isDigitChar, .lit "/".data, .plusG isDigitChar, .lit "/".data,
        .plusG isDigitChar] (slot ++ ('/' :: (card ++ ('/' :: (pport ++ r))))) =
      r :: t := by
  obtain ⟨tc, htc⟩ := mGAll_plusG_run isDigitChar [] pport r h3.1 h3.2 hstop
  have hc : mGAll [.plusG isDigitChar] (pport ++ r) = r :: tc := by
    simpa [mGAll] using htc
  have hlc : mGAll [.lit "/".data, .plusG isDigitChar] ('/' :: (pport ++ r)) = r :: tc := by
    have := mGAll_lit_self "/".data [.plusG isDigitChar] (pport ++ r)
    simpa [this] using hc
  obtain ⟨tb, htb⟩ := mGAll_plusG_run isDigitChar [.lit "/".data, .plusG isDigitChar]
    card ('/' :: (pport ++ r)) h2.1 h2.2 (takeWhile_nil_of_head_neg _ _ _ (by decide))
  have hb : mGAll [.plusG isDigitChar, .lit "/".data, .plusG isDigitChar]
      (card ++ ('/' :: (pport ++ r))) = r :: (tc ++ tb) := by
    rw [htb, hlc]
    rfl
  have hlb : mGAll [.lit "/".data, .plusG isDigitChar, .lit "/".data, .plusG isDigitChar]
      ('/' :: (card ++ ('/' :: (pport ++ r)))) = r :: (tc ++ tb) := by
    have := mGAll_lit_self "/".data [.plusG isDigitChar, .lit "/".data, .plusG isDigitChar]
      (card ++ ('/' :: (pport ++ r)))
    simpa [this] using hb
  obtain ⟨ta, hta⟩ := mGAll_plusG_run isDigitChar
    [.lit "/".data, .plusG isDigitChar, .lit "/".data, .plusG isDigitChar]
    slot ('/' :: (card ++ ('/' :: (pport ++ r)))) h1.1 h1.2
    (takeWhile_nil_of_head_neg _ _ _ (by decide))
  refine ⟨tc ++ tb ++ ta, ?_⟩
  rw [hta, hlb]
  simp [List.append_assoc]

/-- The captured text of a group that consumed `content` from
`content ++ x`. -/
theorem take_sub_of_append (content x : List Char) :
    (content ++ x).take ((content ++ x).length - x.length) = content := by
  rw [List.length_append, Nat.add_sub_cancel, List.take_left]

/-- A simple element whose first candidate leads into a successful
continuation puts that continuation's first match first. -/
theorem mEAll_simple_head (g : GElem) (rest : List RElem) (cs x : List Char)
    (t : List (List Char)) (hg : mGAll [g] cs = x :: t)
    (y : List Char × List String) (t2 : List (List Char × List String))
    (hr : mEAll rest x = y :: t2) :
    ∃ t3, mEAll (.simple g :: rest) cs = y :: t3 := by
  refine ⟨t2 ++ t.flatMap (fun r => mEAll rest r), ?_⟩
  simp only [mEAll, hg, List.flatMap_cons, hr]
  rfl

/-- A capture group that consumed `content`, followed by a successful
continuation, contributes `content` as the next capture. -/
theorem mEAll_grp_head (gs : List GElem) (rest : List RElem) (content x : List Char)
    (t : List (List Char)) (hg : mGAll gs (content ++ x) = x :: t)
    (y : List Char × List String) (t2 : List (List Char × List String))
    (hr : mEAll rest x = y :: t2) :
    ∃ t3, mEAll (.grp gs :: rest) (content ++ x) =
      (y.1, String.mk content :: y.2) :: t3 := by
  simp only [mEAll, hg, List.flatMap_cons, hr, List.map_cons, take_sub_of_append,
    List.cons_append]
  exact ⟨_, rfl⟩

/-- A literal simple element over itself steps the whole pattern. -/
theorem mEAll_lit_head (s : List Char) (rest : List RElem) (r : List Char) :
    mEAll (.simple (.lit s) :: rest) (s ++ r) = mEAll rest r := by
  simp [mEAll, mGAll, startsWithCS_append_self, List.drop_left]

/-- The first match of the discovery pattern at the start of a
well-formed line captures exactly the four fields and ends right
before the line break. -/
theorem mEAll_uncfg_line (row : UncfgRow) (h : row.WF) (u : List Char) :
    ∃ t, mEAll onuLinePattern (row.line ++ (Char.ofNat 10 :: u)) =
      ((Char.ofNat 10 :: u),
       [String.mk (row.slot ++ '/' :: row.card ++ '/' :: row.pport),
        String.mk row.onuDigits, String.mk row.serial, String.mk row.status]) :: t := by
  obtain ⟨hslot, hcard, hpport, honu, hsep1, hserial, hsep2, hstatus⟩ := h
  -- Stage 8: the status capture group ends the match at the line break.
  obtain ⟨t8g, ht8g⟩ := mGAll_plusG_run nonWsRe [] row.status (Char.ofNat 10 :: u)
    hstatus.1 (fun c hc => by simp [nonWsRe, hstatus.2 c hc])
    (takeWhile_nil_of_head_neg _ _ _ (by decide))
  have ht8g' : mGAll [.plusG nonWsRe] (row.status ++ (Char.ofNat 10 :: u)) =
      (Char.ofNat 10 :: u) :: t8g := by
    simpa [mGAll] using ht8g
  obtain ⟨t8, ht8⟩ := mEAll_grp_head [.plusG nonWsRe] [] row.status (Char.ofNat 10 :: u)
    t8g ht8g' ((Char.ofNat 10 :: u), []) [] rfl
  -- Stage 7: the second separator run.
  obtain ⟨t7g, ht7g⟩ := mGAll_plusG_run wsRe [] row.sep2
    (row.status ++ (Char.ofNat 10 :: u)) hsep2.1
    (fun c hc => by rw [hsep2.2 c hc]; rfl)
    (takeWhile_ws_nil_of_token _ _ hstatus)
  have ht7g' : mGAll [.plusG wsRe]
      (row.sep2 ++ (row.status ++ (Char.ofNat 10 :: u))) =
      (row.status ++ (Char.ofNat 10 :: u)) :: t7g := by
    simpa [mGAll] using ht7g
  obtain ⟨t7, ht7⟩ := mEAll_simple_head (.plusG wsRe) [.grp [.plusG nonWsRe]]
    (row.sep2 ++ (row.status ++ (Char.ofNat 10 :: u)))
    (row.status ++ (Char.ofNat 10 :: u)) t7g ht7g' _ t8 ht8
  -- Stage 6: the serial capture group.
  obtain ⟨t6g, ht6g⟩ := mGAll_plusG_run nonWsRe [] row.serial
    (row.sep2 ++ (row.status ++ (Char.ofNat 10 :: u))) hserial.1
    (fun c hc => by simp [nonWsRe, hserial.2 c hc])
    (takeWhile_nil_of_spaces _ _ _ hsep2 (by decide))
  have ht6g' : mGAll [.plusG nonWsRe]
      (row.serial ++ (row.sep2 ++ (row.status ++ (Char.ofNat 10 :: u)))) =
      (row.sep2 ++ (row.status ++ (Char.ofNat 10 :: u))) :: t6g := by
    simpa [mGAll] using ht6g
  obtain ⟨t6, ht6⟩ := mEAll_grp_head [.plusG nonWsRe]
    [.simple (.plusG wsRe), .grp [.plusG nonWsRe]] row.serial
    (row.sep2 ++ (row.status ++ (Char.ofNat 10 :: u))) t6g ht6g' _ t7 ht7
  -- Stage 5: the first separator run.
  obtain ⟨t5g, ht5g⟩ := mGAll_plusG_run wsRe [] row.sep1
    (row.serial ++ (row.sep2 ++ (row.status ++ (Char.ofNat 10 :: u)))) hsep1.1
    (fun c hc => by rw [hsep1.2 c hc]; rfl)
    (takeWhile_ws_nil_of_token _ _ hserial)
  have ht5g' : mGAll [.plusG wsRe]
      (row.sep1 ++ (row.serial ++ (row.sep2 ++ (row.status ++ (Char.ofNat 10 :: u))))) =
      (row.serial ++ (row.sep2 ++ (row.status ++ (Char.ofNat 10 :: u)))) :: t5g := by
    simpa [mGAll] using ht5g
  obtain ⟨t5, ht5⟩ := mEAll_simple_head (.plusG wsRe)
    [.grp [.plusG nonWsRe], .simple (.plusG wsRe), .grp [.plusG nonWsRe]]
    (row.sep1 ++ (row.serial ++ (row.sep2 ++ (row.status ++ (Char.ofNat 10 :: u)))))
    (row.serial ++ (row.sep2 ++ (row.status ++ (Char.ofNat 10 :: u)))) t5g ht5g' _ t6 ht6
  -- Stage 4: the ONU id capture group.
  obtain ⟨t4g, ht4g⟩ := mGAll_plusG_run isDigitChar [] row.onuDigits
    (row.sep1 ++ (row.serial ++ (row.sep2 ++ (row.status ++ (Char.ofNat 10 :: u)))))
    honu.1 honu.2 (takeWhile_nil_of_spaces _ _ _ hsep1 (by decide))
  have ht4g' : mGAll [.plusG isDigitChar]
      (row.onuDigits ++
        (row.sep1 ++ (row.serial ++ (row.sep2 ++ (row.status ++ (Char.ofNat 10 :: u)))))) =
      (row.sep1 ++ (row.serial ++ (row.sep2 ++ (row.status ++ (Char.ofNat 10 :: u))))) ::
        t4g := by
    simpa [mGAll] using ht4g
  obtain ⟨t4, ht4⟩ := mEAll_grp_head [.plusG isDigitChar]
    [.simple (.plusG wsRe), .grp [.plusG nonWsRe], .simple (.plusG wsRe),
     .grp [.plusG nonWsRe]] row.onuDigits
    (row.sep1 ++ (row.serial ++ (row.sep2 ++ (row.status ++ (Char.ofNat 10 :: u)))))
    t4g ht4g' _ t5 ht5
  -- Stage 3: the colon literal.
  have ht3 := (mEAll_lit_head ":".data
    [.grp [.plusG isDigitChar], .simple (.plusG wsRe), .grp [.plusG nonWsRe],
     .simple (.plusG wsRe), .grp [.plusG nonWsRe]]
    (row.onuDigits ++
      (row.sep1 ++ (row.serial ++ (row.sep2 ++ (row.status ++ (Char.ofNat 10 :: u))))))).trans
    ht4
  -- Stage 2: the slot/card/port capture group.
  obtain ⟨t2g, ht2g⟩ := mGAll_slot_group row.slot row.card row.pport
    (':' :: (row.onuDigits ++
      (row.sep1 ++ (row.serial ++ (row.sep2 ++ (row.status ++ (Char.ofNat 10 :: u)))))))
    hslot hcard hpport (takeWhile_nil_of_head_neg _ _ _ (by decide))
  have hassoc : row.slot ++ ('/' :: (row.card ++ ('/' :: (row.pport ++
      (':' :: (row.onuDigits ++ (row.sep1 ++ (row.serial ++ (row.sep2 ++
        (row.status ++ (Char.ofNat 10 :: u))))))))))) =
      (row.slot ++ '/' :: row.card ++ '/' :: row.pport) ++
        (':' :: (row.onuDigits ++ (row.sep1 ++ (row.serial ++ (row.sep2 ++
          (row.status ++ (Char.ofNat 10 :: u))))))) := by
    simp [List.append_assoc]
  rw [hassoc] at ht2g
  obtain ⟨t2, ht2⟩ := mEAll_grp_head
    [.plusG isDigitChar, .lit "/".data, .plusG isDigitChar, .lit "/".data,
     .plusG isDigitChar]
    (.simple (.lit ":".data) ::
      [.grp [.plusG isDigitChar], .simple (.plusG wsRe), .grp [.plusG nonWsRe],
       .simple (.plusG wsRe), .grp [.plusG nonWsRe]])
    (row.slot ++ '/' :: row.card ++ '/' :: row.pport)
    (':' :: (row.onuDigits ++
      (row.sep1 ++ (row.serial ++ (row.sep2 ++ (row.status ++ (Char.ofNat 10 :: u)))))))
    t2g ht2g _ t4 ht3
  -- Stage 1: the opening literal, and reassociation of the line text.
  refine ⟨t2, ?_⟩
  have hline : row.line ++ (Char.ofNat 10 :: u) =
      "gpon-onu_".data ++
        ((row.slot ++ '/' :: row.card ++ '/' :: row.pport) ++
          (':' :: (row.onuDigits ++ (row.sep1 ++ (row.serial ++ (row.sep2 ++
            (row.status ++ (Char.ofNat 10 :: u)))))))) := by
    simp [UncfgRow.line, List.append_assoc]
  rw [hline, show onuLinePattern = .simple (.lit "gpon-onu_".data) ::
      (.grp [.plusG isDigitChar, .lit "/".data, .plusG isDigitChar, .lit "/".data,
        .plusG isDigitChar] ::
       (.simple (.lit ":".data) ::
        [.grp [.plusG isDigitChar], .simple (.plusG wsRe), .grp [.plusG nonWsRe],
         .simple (.plusG wsRe), .grp [.plusG nonWsRe]])) from rfl, mEAll_lit_head]
  exact ht2

/-- A rendered line is nonempty. -/
theorem line_length_pos (row : UncfgRow) : 0 < row.line.length := by
  have h : row.line.length = 9 + (row.slot ++ ('/' :: (row.card ++ ('/' :: (row.pport ++
      (':' :: (row.onuDigits ++ (row.sep1 ++ (row.serial ++ (row.sep2 ++
        row.status)))))))))).length := by
    rw [UncfgRow.line, List.length_append]
    rfl
  omega

/-- The discovery pattern never matches at a line break. -/
theorem mEAll_onuLine_newline (x : List Char) :
    mEAll onuLinePattern (Char.ofNat 10 :: x) = [] := by
  have h : startsWithCS "gpon-onu_".data (Char.ofNat 10 :: x) = false := rfl
  simp [onuLinePattern, mEAll, mGAll, h]

/-- The scan result does not depend on the fuel, once the fuel exceeds
the input length. -/
theorem reFindAux_fuel_stable (es : List RElem) (f1 f2 : Nat) (cs : List Char)
    (h1 : cs.length < f1) (h2 : cs.length < f2) :
    reFindAux es f1 cs = reFindAux es f2 cs := by
  induction f1 generalizing f2 cs with
  | zero => omega
  | succ n ih =>
    cases f2 with
    | zero => omega
    | succ m =>
      simp only [reFindAux]
      cases hme : (mEAll es cs).head? with
      | none =>
        cases cs with
        | nil => rfl
        | cons c cs' =>
          simp only [List.length_cons] at h1 h2
          exact ih m cs' (by omega) (by omega)
      | some rc =>
        by_cases hlt : rc.1.length < cs.length
        · simp only [hlt, if_true]
          rw [ih m rc.1 (by omega) (by omega)]
        · simp only [hlt, if_false]
          cases cs with
          | nil => rfl
          | cons c cs' =>
            simp only [List.length_cons] at h1 h2
            exact congrArg _ (ih m cs' (by omega) (by omega))

/-- Scanning well-formed rendered rows yields exactly one capture list
per row, in document order. -/
theorem reFindAux_renderRows (rows : List UncfgRow) (hwf : ∀ r ∈ rows, r.WF)
    (fuel : Nat) (hfuel : (renderRows rows).length < fuel) :
    reFindAux onuLinePattern fuel (renderRows rows) =
      rows.map (fun row =>
        [String.mk (row.slot ++ '/' :: row.card ++ '/' :: row.pport),
         String.mk row.onuDigits, String.mk row.serial, String.mk row.status]) := by
  induction rows generalizing fuel with
  | nil =>
    cases fuel with
    | zero => omega
    | succ n => rfl
  | cons row rest ih =>
    obtain ⟨t, ht⟩ := mEAll_uncfg_line row (hwf row (by simp)) (renderRows rest)
    have hwf' : ∀ r ∈ rest, r.WF := fun r hr => hwf r (by simp [hr])
    have hllen : 0 < row.line.length := line_length_pos row
    have hlen : renderRows (row :: rest) =
        row.line ++ (Char.ofNat 10 :: renderRows rest) := rfl
    have hlen2 : (renderRows (row :: rest)).length =
        row.line.length + (1 + (renderRows rest).length) := by
      rw [hlen, List.length_append, List.length_cons]
      omega
    cases fuel with
    | zero => omega
    | succ n =>
      rw [hlen]
      simp only [reFindAux, ht, List.head?_cons]
      have hlt : (Char.ofNat 10 :: renderRows rest).length <
          (row.line ++ (Char.ofNat 10 :: renderRows rest)).length := by
        rw [List.length_append]
        simp only [List.length_cons]
        omega
      rw [if_pos hlt]
      have hn : (renderRows rest).length + 2 ≤ n := by
        rw [hlen] at hfuel
        rw [List.length_append] at hfuel
        simp only [List.length_cons] at hfuel
        omega
      cases n with
      | zero => omega
      | succ m =>
        simp only [reFindAux, mEAll_onuLine_newline, List.head?_nil]
        rw [ih hwf' m (by omega)]
        simp

/-- Parsing well-formed rendered discovery output yields exactly the
expected result list, in document order. -/
theorem parse_unconfigured_onus_renderRows (typeMap : List (String × String))
    (rows : List UncfgRow) (hwf : ∀ r ∈ rows, r.WF) :
    parse_unconfigured_onus typeMap (String.mk (renderRows rows)) =
      rows.map (UncfgRow.result typeMap) := by
  simp only [parse_unconfigured_onus, reFindAll]
  rw [reFindAux_renderRows rows hwf _ (Nat.lt_succ_self _)]
  rw [List.map_map]
  rfl

/-- C5: for well-formed discovery output (each line rendered from a row
of the discovery grammar), `parse_unconfigured_onus` returns one
`DiscoveredONU` per line, in document order, with `onu_id` the numeric
value of the digits; in particular the claim's concrete example line
parses to exactly the expected single result. -/
theorem discovery_parse_wellformed (typeMap : List (String × String))
    (rows : List UncfgRow) (hwf : ∀ r ∈ rows, r.WF) :
    parse_unconfigured_onus typeMap (String.mk (renderRows rows)) =
      rows.map (UncfgRow.result typeMap) ∧
    parse_unconfigured_onus type_map_c300
        "gpon-onu_1/1/1:1    ZTEGC1234567    initial\n" =
      [{ pon_port := "1/1/1", onu_id := 1, serial_number := "ZTEGC1234567",
         onu_type := "ZTE GPON", status := "initial" }] :=
  ⟨parse_unconfigured_onus_renderRows typeMap rows hwf, by decide⟩

/-- Witness for C5 at the claim's concrete row: rendering it and
parsing returns exactly the expected single discovery result. -/
theorem discovery_parse_wellformed_witness :
    parse_unconfigured_onus type_map_c300
        (String.mk (renderRows [⟨"1".data, "1".data, "1".data, "1".data, "    ".data,
          "ZTEGC1234567".data, "    ".data, "initial".data⟩])) =
      [{ pon_port := "1/1/1", onu_id := 1, serial_number := "ZTEGC1234567",
         onu_type := "ZTE GPON", status := "initial" }] := by
  have h := (discovery_parse_wellformed type_map_c300
    [⟨"1".data, "1".data, "1".data, "1".data, "    ".data,
      "ZTEGC1234567".data, "    ".data, "initial".data⟩] (by decide)).1
  rw [h]
  decide
